import Mathlib

/-!
Shallow embedding of the announcement store and facade of
`a11y-live-announcer` (src/src/index.tsx).

The store keeps, per priority channel ("polite"/normal and
"assertive"/urgent), two text slots, a binary rotation cursor and a
last-announcement memory `(message, id)`.  `announce` suppresses a call
when the caller-supplied id is truthy and the `(message, id)` pair equals
the channel's last-announcement memory; otherwise it writes the message
into the slot at the rotation cursor, empties the other slot, flips the
cursor, records the memory, and (when the configured delay is positive)
re-arms the single auto-clear timeout.  `clearAnnouncements` empties all
four slots and both memories.  The timer callback invokes
`clearAnnouncements`.

Time is modelled explicitly: the state carries the current time `now`
and, for the pending `setTimeout`, an optional absolute fire time
`pending`; `advanceTime` moves the clock and fires the callback when the
deadline is reached.  The nondeterministic `generateId()` value is passed
in as an explicit `freshId` argument.
-/

/-- Priority of an announcement, as in `LiveAnnouncerPriority`. -/
inductive LiveAnnouncerPriority where
  | polite
  | assertive
deriving DecidableEq, Repr

/-- `AnnouncementState` of the source: the last-announcement memory of one channel. -/
structure AnnouncementState where
  message : String
  id : String
deriving DecidableEq, Repr

/-- `LiveAnnouncerOptions`: optional priority (default polite) and optional id. -/
structure LiveAnnouncerOptions where
  priority : Option LiveAnnouncerPriority
  id : Option String
deriving DecidableEq, Repr

/-- The mutable state held by one `LiveAnnouncerProvider` instance:
the four slot texts, the two rotation cursors (`politeIndexRef`,
`assertiveIndexRef`), the two last-announcement memories, the pending
auto-clear timeout (absolute fire time), the current time, and the
configured `clearOnUnmountDelay`. -/
structure StoreState where
  politeIndex : Nat
  assertiveIndex : Nat
  polite1 : String
  polite2 : String
  assertive1 : String
  assertive2 : String
  lastPolite : AnnouncementState
  lastAssertive : AnnouncementState
  pending : Option Nat
  now : Nat
  delay : Nat
deriving DecidableEq, Repr

/-- Initial provider state: cursors 0, all slots empty, empty memories,
no pending timeout, configured delay `d` (source default 7000). -/
def initialState (d : Nat) : StoreState :=
  { politeIndex := 0
    assertiveIndex := 0
    polite1 := ""
    polite2 := ""
    assertive1 := ""
    assertive2 := ""
    lastPolite := ⟨"", ""⟩
    lastAssertive := ⟨"", ""⟩
    pending := none
    now := 0
    delay := d }

/-- JS strict equality `s === id` between the stored id (a string) and the
caller-supplied `id` (a string or `undefined`). -/
def jsStrEq (s : String) (id : Option String) : Bool :=
  match id with
  | some t => s == t
  | none => false

/-- JS truthiness of the caller-supplied `id`: `undefined` and `""` are falsy. -/
def jsTruthy (id : Option String) : Bool :=
  match id with
  | some t => !(t == "")
  | none => false

/-- `id || generateId()`: the effective announcement id, where `freshId`
stands for the synthesized `generateId()` value. -/
def resolveId (id : Option String) (freshId : String) : String :=
  match id with
  | some s => if s == "" then freshId else s
  | none => freshId

/-- `clearAnnouncements`: empties all four slots and resets both
last-announcement memories.  It does not touch the timer. -/
def clearAnnouncements (st : StoreState) : StoreState :=
  { st with
    polite1 := ""
    polite2 := ""
    assertive1 := ""
    assertive2 := ""
    lastPolite := ⟨"", ""⟩
    lastAssertive := ⟨"", ""⟩ }

/-- The `if (clearOnUnmountDelay > 0)` block at the end of `announce`:
cancel any pending timeout and schedule a new one for `delay` from now. -/
def armTimer (st : StoreState) : StoreState :=
  if 0 < st.delay then { st with pending := some (st.now + st.delay) } else st

/-- The channel an `announce` call addresses: `options.priority` with
default `polite`. -/
def channelOf (opts : LiveAnnouncerOptions) : LiveAnnouncerPriority :=
  opts.priority.getD LiveAnnouncerPriority.polite

/-- The last-announcement memory of a channel. -/
def channelLast (st : StoreState) (c : LiveAnnouncerPriority) : AnnouncementState :=
  match c with
  | LiveAnnouncerPriority.polite => st.lastPolite
  | LiveAnnouncerPriority.assertive => st.lastAssertive

/-- The rotation cursor of a channel. -/
def chIndex (c : LiveAnnouncerPriority) (st : StoreState) : Nat :=
  match c with
  | LiveAnnouncerPriority.polite => st.politeIndex
  | LiveAnnouncerPriority.assertive => st.assertiveIndex

/-- The suppression test of `announce`, per channel:
`lastState.message === message && lastState.id === id && id`. -/
def suppressedOn (st : StoreState) (message : String) (opts : LiveAnnouncerOptions) : Bool :=
  (channelLast st (channelOf opts)).message == message
    && jsStrEq (channelLast st (channelOf opts)).id opts.id
    && jsTruthy opts.id

/-- `announce(message, options)`.  `freshId` stands for the value
`generateId()` would synthesize during this call. -/
def announce (st : StoreState) (message : String) (opts : LiveAnnouncerOptions)
    (freshId : String) : StoreState :=
  let announcementId := resolveId opts.id freshId
  match channelOf opts with
  | LiveAnnouncerPriority.assertive =>
    if st.lastAssertive.message == message && jsStrEq st.lastAssertive.id opts.id
        && jsTruthy opts.id then
      st
    else
      let st1 :=
        if st.assertiveIndex == 0 then
          { st with assertive1 := message, assertive2 := "" }
        else
          { st with assertive2 := message, assertive1 := "" }
      armTimer { st1 with
        assertiveIndex := if st.assertiveIndex == 0 then 1 else 0
        lastAssertive := ⟨message, announcementId⟩ }
  | LiveAnnouncerPriority.polite =>
    if st.lastPolite.message == message && jsStrEq st.lastPolite.id opts.id
        && jsTruthy opts.id then
      st
    else
      let st1 :=
        if st.politeIndex == 0 then
          { st with polite1 := message, polite2 := "" }
        else
          { st with polite2 := message, polite1 := "" }
      armTimer { st1 with
        politeIndex := if st.politeIndex == 0 then 1 else 0
        lastPolite := ⟨message, announcementId⟩ }

/-- `announcePolite(message, id)`: sugar for `announce` at polite priority. -/
def announcePolite (st : StoreState) (message : String) (id : Option String)
    (freshId : String) : StoreState :=
  announce st message ⟨some LiveAnnouncerPriority.polite, id⟩ freshId

/-- `announceAssertive(message, id)`: sugar for `announce` at assertive priority. -/
def announceAssertive (st : StoreState) (message : String) (id : Option String)
    (freshId : String) : StoreState :=
  announce st message ⟨some LiveAnnouncerPriority.assertive, id⟩ freshId

/-- Advance the clock by `dt`; if the pending timeout's deadline is
reached, its callback runs `clearAnnouncements` and the handle is spent. -/
def advanceTime (st : StoreState) (dt : Nat) : StoreState :=
  match st.pending with
  | some fireAt =>
    if fireAt ≤ st.now + dt then
      { clearAnnouncements st with pending := none, now := st.now + dt }
    else
      { st with now := st.now + dt }
  | none => { st with now := st.now + dt }

/-- One operation on a store instance: an `announce` call (with the id
`generateId()` would produce), a `clearAnnouncements` call, or the clock
advancing (which may fire the auto-clear timeout). -/
inductive Op where
  | announceOp (message : String) (opts : LiveAnnouncerOptions) (freshId : String)
  | clearOp
  | advanceOp (dt : Nat)
deriving DecidableEq, Repr

/-- Apply one operation. -/
def applyOp (st : StoreState) : Op → StoreState
  | Op.announceOp message opts freshId => announce st message opts freshId
  | Op.clearOp => clearAnnouncements st
  | Op.advanceOp dt => advanceTime st dt

/-- Apply a sequence of operations in order. -/
def applyOps (st : StoreState) (l : List Op) : StoreState :=
  l.foldl applyOp st

/-- States reachable from the initial state of a store configured with
delay `d`, under `announce`, `clearAnnouncements`, and the passage of time. -/
inductive Reachable (d : Nat) : StoreState → Prop where
  | init : Reachable d (initialState d)
  | step (st : StoreState) (op : Op) : Reachable d st → Reachable d (applyOp st op)

/-! ### Proof infrastructure -/

/-- The state an accepted `announce` produces before the timer block:
write the message into the slot at the channel's cursor, empty the other
slot, flip the cursor, record the last-announcement memory. -/
def writeAccepted (st : StoreState) (msg : String) (opts : LiveAnnouncerOptions)
    (freshId : String) : StoreState :=
  match channelOf opts with
  | LiveAnnouncerPriority.polite =>
    { st with
      polite1 := if st.politeIndex == 0 then msg else ""
      polite2 := if st.politeIndex == 0 then "" else msg
      politeIndex := if st.politeIndex == 0 then 1 else 0
      lastPolite := ⟨msg, resolveId opts.id freshId⟩ }
  | LiveAnnouncerPriority.assertive =>
    { st with
      assertive1 := if st.assertiveIndex == 0 then msg else ""
      assertive2 := if st.assertiveIndex == 0 then "" else msg
      assertiveIndex := if st.assertiveIndex == 0 then 1 else 0
      lastAssertive := ⟨msg, resolveId opts.id freshId⟩ }

lemma armTimer_eq (st : StoreState) :
    armTimer st =
      { st with pending := if 0 < st.delay then some (st.now + st.delay) else st.pending } := by
  unfold armTimer
  split <;> rfl

lemma announce_eq (st : StoreState) (msg : String) (opts : LiveAnnouncerOptions)
    (f : String) :
    announce st msg opts f =
      if suppressedOn st msg opts then st
      else armTimer (writeAccepted st msg opts f) := by
  rcases opts with ⟨prio, id⟩
  rcases prio with _ | c
  · cases h1 : st.lastPolite.message == msg <;>
      cases h2 : jsStrEq st.lastPolite.id id <;>
      cases h3 : jsTruthy id <;>
      cases hi : st.politeIndex == 0 <;>
      simp [announce, suppressedOn, channelOf, channelLast, writeAccepted, h1, h2, h3, hi]
  · cases c
    · cases h1 : st.lastPolite.message == msg <;>
        cases h2 : jsStrEq st.lastPolite.id id <;>
        cases h3 : jsTruthy id <;>
        cases hi : st.politeIndex == 0 <;>
        simp [announce, suppressedOn, channelOf, channelLast, writeAccepted, h1, h2, h3, hi]
    · cases h1 : st.lastAssertive.message == msg <;>
        cases h2 : jsStrEq st.lastAssertive.id id <;>
        cases h3 : jsTruthy id <;>
        cases hi : st.assertiveIndex == 0 <;>
        simp [announce, suppressedOn, channelOf, channelLast, writeAccepted, h1, h2, h3, hi]

lemma announce_of_suppressed (st : StoreState) (msg : String)
    (opts : LiveAnnouncerOptions) (f : String)
    (h : suppressedOn st msg opts = true) : announce st msg opts f = st := by
  rw [announce_eq, if_pos h]

lemma announce_of_accepted (st : StoreState) (msg : String)
    (opts : LiveAnnouncerOptions) (f : String)
    (h : suppressedOn st msg opts = false) :
    announce st msg opts f = armTimer (writeAccepted st msg opts f) := by
  rw [announce_eq, if_neg]
  simp [h]

/-- The text of slot `i` of a channel, following the source's branch
`currentIndex === 0 ? slot1 : slot2`. -/
def slotContent (c : LiveAnnouncerPriority) (i : Nat) (st : StoreState) : String :=
  match c with
  | LiveAnnouncerPriority.polite => if i == 0 then st.polite1 else st.polite2
  | LiveAnnouncerPriority.assertive => if i == 0 then st.assertive1 else st.assertive2

/-- The pair of slot texts of a channel. -/
def chSlots (c : LiveAnnouncerPriority) (st : StoreState) : String × String :=
  match c with
  | LiveAnnouncerPriority.polite => (st.polite1, st.polite2)
  | LiveAnnouncerPriority.assertive => (st.assertive1, st.assertive2)

/-- The slot an `announce` call writes into when accepted: the slot at the
addressed channel's rotation cursor. -/
def writeTarget (st : StoreState) (opts : LiveAnnouncerOptions) : Nat :=
  chIndex (channelOf opts) st

lemma channelLast_clear (st : StoreState) (c : LiveAnnouncerPriority) :
    channelLast (clearAnnouncements st) c = ⟨"", ""⟩ := by
  cases c <;> rfl

lemma suppressedOn_clear (st : StoreState) (msg : String) (opts : LiveAnnouncerOptions) :
    suppressedOn (clearAnnouncements st) msg opts = false := by
  unfold suppressedOn
  rw [channelLast_clear]
  rcases opts with ⟨prio, id⟩
  rcases id with _ | t
  · simp [jsTruthy]
  · by_cases ht : t = "" <;> simp [jsTruthy, jsStrEq, ht]
    intro _
    exact fun h => ht h.symm

lemma chIndex_clear (st : StoreState) (c : LiveAnnouncerPriority) :
    chIndex c (clearAnnouncements st) = chIndex c st := by
  cases c <;> rfl

lemma chIndex_armTimer (st : StoreState) (c : LiveAnnouncerPriority) :
    chIndex c (armTimer st) = chIndex c st := by
  cases c <;> rw [armTimer_eq] <;> rfl

lemma slotContent_armTimer (st : StoreState) (c : LiveAnnouncerPriority) (i : Nat) :
    slotContent c i (armTimer st) = slotContent c i st := by
  cases c <;> rw [armTimer_eq] <;> rfl

lemma slotContent_writeAccepted (st : StoreState) (msg : String)
    (opts : LiveAnnouncerOptions) (f : String) :
    slotContent (channelOf opts) (chIndex (channelOf opts) st)
      (writeAccepted st msg opts f) = msg := by
  rcases h : channelOf opts with _ | _ <;>
    unfold writeAccepted <;> rw [h] <;>
    cases hi : st.politeIndex == 0 <;> cases hj : st.assertiveIndex == 0 <;>
    simp [slotContent, chIndex, hi, hj]

lemma chSlots_armTimer (st : StoreState) (c : LiveAnnouncerPriority) :
    chSlots c (armTimer st) = chSlots c st := by
  cases c <;> rw [armTimer_eq] <;> rfl

lemma chSlots_writeAccepted (st : StoreState) (msg : String)
    (opts : LiveAnnouncerOptions) (f : String) :
    chSlots (channelOf opts) (writeAccepted st msg opts f) = (msg, "") ∨
    chSlots (channelOf opts) (writeAccepted st msg opts f) = ("", msg) := by
  rcases h : channelOf opts with _ | _
  · cases hi : st.politeIndex == 0 <;>
      simp [writeAccepted, chSlots, h, hi]
  · cases hi : st.assertiveIndex == 0 <;>
      simp [writeAccepted, chSlots, h, hi]

lemma chIndex_writeAccepted (st : StoreState) (msg : String)
    (opts : LiveAnnouncerOptions) (f : String) :
    chIndex (channelOf opts) (writeAccepted st msg opts f) =
      if chIndex (channelOf opts) st == 0 then 1 else 0 := by
  rcases h : channelOf opts with _ | _ <;>
    simp [writeAccepted, chIndex, h]

lemma flip_ne (i : Nat) : (if i == 0 then 1 else 0) ≠ i := by
  by_cases h : i = 0 <;> simp [h]
  omega

lemma suppressedOn_true_iff (st : StoreState) (msg : String)
    (opts : LiveAnnouncerOptions) :
    suppressedOn st msg opts = true ↔
      ∃ s, opts.id = some s ∧ s ≠ "" ∧
        (channelLast st (channelOf opts)).id = s ∧
        (channelLast st (channelOf opts)).message = msg := by
  rcases opts with ⟨prio, id⟩
  rcases id with _ | t
  · simp [suppressedOn, jsStrEq, jsTruthy]
  · simp only [suppressedOn, jsStrEq, jsTruthy, Bool.and_eq_true, beq_iff_eq,
      Bool.not_eq_true', beq_eq_false_iff_ne, ne_eq]
    constructor
    · rintro ⟨⟨h1, h2⟩, h3⟩
      exact ⟨t, rfl, h3, h2, h1⟩
    · rintro ⟨s, hs, h3, h2, h1⟩
      cases hs
      exact ⟨⟨h1, h2⟩, h3⟩

/-- C6: for every prior state, `clearAnnouncements` empties all four slots and
resets both channels' last-announcement memory, and it leaves the auto-clear
timer state (and the clock and configured delay) unchanged: it neither
cancels nor arms a timer. -/
theorem clearAnnouncements_resets_slots_and_memory (st : StoreState) :
    (clearAnnouncements st).polite1 = "" ∧ (clearAnnouncements st).polite2 = "" ∧
    (clearAnnouncements st).assertive1 = "" ∧
    (clearAnnouncements st).assertive2 = "" ∧
    (clearAnnouncements st).lastPolite = ⟨"", ""⟩ ∧
    (clearAnnouncements st).lastAssertive = ⟨"", ""⟩ ∧
    (clearAnnouncements st).pending = st.pending ∧
    (clearAnnouncements st).now = st.now ∧
    (clearAnnouncements st).delay = st.delay :=
  ⟨rfl, rfl, rfl, rfl, rfl, rfl, rfl, rfl, rfl⟩

/-- C10: `clearAnnouncements` leaves both channels' rotation cursors
unchanged; any announce after a clear is accepted (the memories are reset)
and writes its message into the slot the cursor pointed to before the clear
— which need not be slot 0, as the concrete run in the last conjunct shows
(after one accepted polite announce the polite cursor is 1 and survives the
clear). -/
theorem clear_preserves_rotation_cursors (st : StoreState) (msg : String)
    (opts : LiveAnnouncerOptions) (f : String) :
    (clearAnnouncements st).politeIndex = st.politeIndex ∧
    (clearAnnouncements st).assertiveIndex = st.assertiveIndex ∧
    suppressedOn (clearAnnouncements st) msg opts = false ∧
    slotContent (channelOf opts) (chIndex (channelOf opts) st)
      (announce (clearAnnouncements st) msg opts f) = msg ∧
    (clearAnnouncements (announcePolite (initialState 7000) "a" none "g")).politeIndex
      = 1 := by
  refine ⟨rfl, rfl, suppressedOn_clear st msg opts, ?_, by decide⟩
  rw [announce_of_accepted _ _ _ _ (suppressedOn_clear st msg opts),
    slotContent_armTimer, ← chIndex_clear st (channelOf opts)]
  exact slotContent_writeAccepted _ _ _ _

/-- C2 counterexample: on a fresh store, `announce("", { id: "" })` supplies
an explicit identifier equal to the polite channel's last-announcement id
(`""`) with a message equal to the last-announcement text (`""`), yet the
call is not a no-op: the cursor flips and the timer is armed (the source's
`&& id` truthiness test rejects the empty identifier). -/
theorem announce_suppression_iff_cex :
    ¬ ((announce (initialState 7000) "" ⟨none, some ""⟩ "g" = initialState 7000) ↔
       ((initialState 7000).lastPolite.id = "" ∧
        (initialState 7000).lastPolite.message = "")) := by
  decide

/-- C2 (amended): `announce` is a complete no-op (state unchanged, timer not
re-armed) if and only if the caller supplied an explicit NON-EMPTY identifier
that equals the channel's last-announcement identifier while the message
equals the channel's last-announcement text; in every other case the call is
accepted and mutates the state. -/
theorem announce_noop_iff (st : StoreState) (msg : String)
    (opts : LiveAnnouncerOptions) (f : String) :
    announce st msg opts f = st ↔
      ∃ s, opts.id = some s ∧ s ≠ "" ∧
        (channelLast st (channelOf opts)).id = s ∧
        (channelLast st (channelOf opts)).message = msg := by
  rw [← suppressedOn_true_iff]
  constructor
  · intro h
    cases hsup : suppressedOn st msg opts
    · rw [announce_of_accepted st msg opts f hsup] at h
      have hidx := congrArg (chIndex (channelOf opts)) h
      rw [chIndex_armTimer, chIndex_writeAccepted] at hidx
      exact absurd hidx (flip_ne _)
    · rfl
  · exact announce_of_suppressed st msg opts f

/-- C4 counterexample: the empty message carries no identifier, so the call
is accepted, yet afterwards no slot of the polite channel is non-empty —
"exactly one slot non-empty holding the just-announced text" fails for an
accepted empty announcement. -/
theorem accepted_empty_message_cex :
    suppressedOn (initialState 7000) "" ⟨none, none⟩ = false ∧
    (announce (initialState 7000) "" ⟨none, none⟩ "g").polite1 = "" ∧
    (announce (initialState 7000) "" ⟨none, none⟩ "g").polite2 = "" := by
  decide

/-- C4 (amended): after any accepted `announce` of a NON-EMPTY message,
exactly one of the addressed channel's two slots is non-empty and that slot
holds the just-announced message text (for the accepted empty message both
slots end empty instead). -/
theorem announce_fills_exactly_one_slot (st : StoreState) (msg : String)
    (opts : LiveAnnouncerOptions) (f : String)
    (hacc : suppressedOn st msg opts = false) (hmsg : msg ≠ "") :
    ((chSlots (channelOf opts) (announce st msg opts f)).1 = msg ∧
     (chSlots (channelOf opts) (announce st msg opts f)).2 = "" ∧
     (chSlots (channelOf opts) (announce st msg opts f)).1 ≠ "") ∨
    ((chSlots (channelOf opts) (announce st msg opts f)).2 = msg ∧
     (chSlots (channelOf opts) (announce st msg opts f)).1 = "" ∧
     (chSlots (channelOf opts) (announce st msg opts f)).2 ≠ "") := by
  rw [announce_of_accepted st msg opts f hacc, chSlots_armTimer]
  rcases chSlots_writeAccepted st msg opts f with h | h <;> rw [h]
  · exact Or.inl ⟨rfl, rfl, hmsg⟩
  · exact Or.inr ⟨rfl, rfl, hmsg⟩

/-- Witness for the amended C4 at a concrete accepted non-empty announce. -/
theorem announce_fills_exactly_one_slot_witness :
    suppressedOn (initialState 7000) "Saved" ⟨none, none⟩ = false ∧
    ("Saved" : String) ≠ "" ∧
    (((chSlots (channelOf ⟨none, none⟩)
        (announce (initialState 7000) "Saved" ⟨none, none⟩ "g")).1 = "Saved" ∧
      (chSlots (channelOf ⟨none, none⟩)
        (announce (initialState 7000) "Saved" ⟨none, none⟩ "g")).2 = "" ∧
      (chSlots (channelOf ⟨none, none⟩)
        (announce (initialState 7000) "Saved" ⟨none, none⟩ "g")).1 ≠ "") ∨
     ((chSlots (channelOf ⟨none, none⟩)
        (announce (initialState 7000) "Saved" ⟨none, none⟩ "g")).2 = "Saved" ∧
      (chSlots (channelOf ⟨none, none⟩)
        (announce (initialState 7000) "Saved" ⟨none, none⟩ "g")).1 = "" ∧
      (chSlots (channelOf ⟨none, none⟩)
        (announce (initialState 7000) "Saved" ⟨none, none⟩ "g")).2 ≠ "")) :=
  ⟨by decide, by decide,
    announce_fills_exactly_one_slot (initialState 7000) "Saved" ⟨none, none⟩ "g"
      (by decide) (by decide)⟩

/-- The store state after the spec's rapid-call scenario:
`announcePolite("Msg 1", "1")`, `announcePolite("Msg 2", "2")`,
`announcePolite("Msg 3", "3")` from the initial state. -/
def rapidCallsFinal : StoreState :=
  announcePolite (announcePolite (announcePolite (initialState 7000)
    "Msg 1" (some "1") "g1") "Msg 2" (some "2") "g2") "Msg 3" (some "3") "g3"

/-- C7 counterexample: after the three rapid calls, slot 1 (the second slot)
of the normal channel does not hold `"Msg 3"`: the third write went to the
slot the cursor pointed at BEFORE its flip, slot 0. -/
theorem rapidCalls_slot1_cex :
    rapidCallsFinal.polite2 ≠ "Msg 3" ∧ rapidCallsFinal.polite1 = "Msg 3" := by
  decide

/-- C7 (amended): the three consecutive accepted polite calls produce three
rotations (cursor 0→1→0→1) and end with `"Msg 3"` in slot 0 of the normal
channel (the slot the cursor pointed to before the third flip), the other
slot empty. -/
theorem rapidCalls_final_state :
    rapidCallsFinal.polite1 = "Msg 3" ∧ rapidCallsFinal.polite2 = "" ∧
    rapidCallsFinal.politeIndex = 1 ∧
    (announcePolite (initialState 7000) "Msg 1" (some "1") "g1").politeIndex = 1 ∧
    (announcePolite (announcePolite (initialState 7000) "Msg 1" (some "1") "g1")
      "Msg 2" (some "2") "g2").politeIndex = 0 := by
  decide

/-- The per-channel slot invariant: at most one of each channel's two slots
holds non-empty text. -/
def channelInvariant (st : StoreState) : Prop :=
  (st.polite1 = "" ∨ st.polite2 = "") ∧ (st.assertive1 = "" ∨ st.assertive2 = "")

lemma channelInvariant_clear (st : StoreState) :
    channelInvariant (clearAnnouncements st) :=
  ⟨Or.inl rfl, Or.inl rfl⟩

lemma channelInvariant_advanceTime (st : StoreState) (dt : Nat)
    (h : channelInvariant st) : channelInvariant (advanceTime st dt) := by
  cases hp : st.pending with
  | none =>
    simp only [advanceTime, hp]
    exact h
  | some fireAt =>
    simp only [advanceTime, hp]
    by_cases hfire : fireAt ≤ st.now + dt
    · rw [if_pos hfire]
      exact ⟨Or.inl rfl, Or.inl rfl⟩
    · rw [if_neg hfire]
      exact h

lemma channelInvariant_writeAccepted (st : StoreState) (msg : String)
    (opts : LiveAnnouncerOptions) (f : String) (h : channelInvariant st) :
    channelInvariant (writeAccepted st msg opts f) := by
  rcases hc : channelOf opts with _ | _
  · cases hi : st.politeIndex == 0 <;>
      simp [writeAccepted, channelInvariant, hc, hi] <;>
      exact h.2
  · cases hi : st.assertiveIndex == 0 <;>
      simp [writeAccepted, channelInvariant, hc, hi] <;>
      exact h.1

lemma channelInvariant_armTimer (st : StoreState) (h : channelInvariant st) :
    channelInvariant (armTimer st) := by
  rw [armTimer_eq]
  exact h

lemma channelInvariant_applyOp (st : StoreState) (op : Op)
    (h : channelInvariant st) : channelInvariant (applyOp st op) := by
  cases op with
  | announceOp msg opts f =>
    rw [applyOp, announce_eq]
    split
    · exact h
    · exact channelInvariant_armTimer _ (channelInvariant_writeAccepted _ _ _ _ h)
  | clearOp => exact channelInvariant_clear st
  | advanceOp dt => exact channelInvariant_advanceTime st dt h

/-- C1: in every reachable state of a store instance, each channel has at
most one non-empty slot, and every operation (`announce` — which forces the
other slot of the written channel empty —, `clearAnnouncements`, and the
auto-clear timer firing as time advances) preserves this invariant. -/
theorem slots_at_most_one_nonempty (d : Nat) (st : StoreState)
    (h : Reachable d st) :
    channelInvariant st ∧ ∀ op : Op, channelInvariant (applyOp st op) := by
  induction h with
  | init =>
    exact ⟨⟨Or.inl rfl, Or.inl rfl⟩,
      fun op => channelInvariant_applyOp _ op ⟨Or.inl rfl, Or.inl rfl⟩⟩
  | step st' op _ ih =>
    exact ⟨ih.2 op, fun op2 => channelInvariant_applyOp _ op2 (ih.2 op)⟩

/-- Witness for C1: the invariant holds in the concrete reachable state one
accepted announce after initialization. -/
theorem slots_at_most_one_nonempty_witness :
    channelInvariant (applyOp (initialState 7000)
      (Op.announceOp "hi" ⟨none, none⟩ "g")) :=
  (slots_at_most_one_nonempty 7000 _
    (Reachable.step _ _ Reachable.init)).1

/-- Whether `op`, applied at state `st`, is an accepted (non-suppressed)
`announce` on channel `c`. -/
def isAcceptedAnnounceOn (c : LiveAnnouncerPriority) (st : StoreState) : Op → Bool
  | Op.announceOp msg opts _ => decide (channelOf opts = c) && !(suppressedOn st msg opts)
  | Op.clearOp => false
  | Op.advanceOp _ => false

/-- Whether a sequence of operations, run from `st`, contains no accepted
announce on channel `c`. -/
def noAcceptedOn (c : LiveAnnouncerPriority) : StoreState → List Op → Bool
  | _, [] => true
  | st, op :: rest =>
    !(isAcceptedAnnounceOn c st op) && noAcceptedOn c (applyOp st op) rest

lemma chIndex_advanceTime (st : StoreState) (dt : Nat) (c : LiveAnnouncerPriority) :
    chIndex c (advanceTime st dt) = chIndex c st := by
  cases hp : st.pending with
  | none =>
    simp only [advanceTime, hp]
    cases c <;> rfl
  | some fireAt =>
    simp only [advanceTime, hp]
    by_cases hfire : fireAt ≤ st.now + dt
    · rw [if_pos hfire]
      cases c <;> rfl
    · rw [if_neg hfire]
      cases c <;> rfl

lemma chIndex_writeAccepted_other (st : StoreState) (msg : String)
    (opts : LiveAnnouncerOptions) (f : String) (c : LiveAnnouncerPriority)
    (h : channelOf opts ≠ c) :
    chIndex c (writeAccepted st msg opts f) = chIndex c st := by
  rcases hch : channelOf opts with _ | _ <;> cases c <;>
    simp_all [writeAccepted, chIndex]

lemma chIndex_applyOp_of_not_accepted (c : LiveAnnouncerPriority)
    (st : StoreState) (op : Op) (h : isAcceptedAnnounceOn c st op = false) :
    chIndex c (applyOp st op) = chIndex c st := by
  cases op with
  | clearOp => exact chIndex_clear st c
  | advanceOp dt => exact chIndex_advanceTime st dt c
  | announceOp msg opts f =>
    cases hsup : suppressedOn st msg opts with
    | true =>
      rw [applyOp, announce_of_suppressed st msg opts f hsup]
    | false =>
      have hc : channelOf opts ≠ c := by
        intro hc
        rw [isAcceptedAnnounceOn, hc, hsup] at h
        simp at h
      rw [applyOp, announce_of_accepted st msg opts f hsup, chIndex_armTimer]
      exact chIndex_writeAccepted_other st msg opts f c hc

lemma chIndex_applyOps_of_noAccepted (c : LiveAnnouncerPriority) (l : List Op) :
    ∀ st : StoreState, noAcceptedOn c st l = true →
      chIndex c (applyOps st l) = chIndex c st := by
  induction l with
  | nil =>
    intro st _
    rfl
  | cons op rest ih =>
    intro st h
    rw [noAcceptedOn, Bool.and_eq_true, Bool.not_eq_true'] at h
    show chIndex c (applyOps (applyOp st op) rest) = chIndex c st
    rw [ih _ h.2]
    exact chIndex_applyOp_of_not_accepted c st op h.1

lemma slotContent_announce_accepted (st : StoreState) (msg : String)
    (opts : LiveAnnouncerOptions) (f : String)
    (hacc : suppressedOn st msg opts = false) :
    slotContent (channelOf opts) (writeTarget st opts) (announce st msg opts f) = msg := by
  rw [writeTarget, announce_of_accepted st msg opts f hacc, slotContent_armTimer]
  exact slotContent_writeAccepted st msg opts f

/-- C3: two consecutive accepted announcements on the same channel write to
different slots.  The first accepted call writes its message into the slot
at the channel's cursor; after any sequence of operations containing no
further accepted announce on that channel, a second accepted call on the
channel targets (and writes into) the other slot. -/
theorem rotation_never_repeats_slot (st : StoreState) (msg : String)
    (opts : LiveAnnouncerOptions) (f : String) (l : List Op) (msg2 : String)
    (opts2 : LiveAnnouncerOptions) (f2 : String)
    (hacc : suppressedOn st msg opts = false)
    (hc2 : channelOf opts2 = channelOf opts)
    (hacc2 : suppressedOn (applyOps (announce st msg opts f) l) msg2 opts2 = false)
    (hl : noAcceptedOn (channelOf opts) (announce st msg opts f) l = true) :
    writeTarget (applyOps (announce st msg opts f) l) opts2 ≠ writeTarget st opts ∧
    slotContent (channelOf opts) (writeTarget st opts) (announce st msg opts f) = msg ∧
    slotContent (channelOf opts2)
      (writeTarget (applyOps (announce st msg opts f) l) opts2)
      (announce (applyOps (announce st msg opts f) l) msg2 opts2 f2) = msg2 := by
  refine ⟨?_, slotContent_announce_accepted st msg opts f hacc,
    slotContent_announce_accepted _ msg2 opts2 f2 hacc2⟩
  show chIndex (channelOf opts2) (applyOps (announce st msg opts f) l) ≠
    chIndex (channelOf opts) st
  rw [hc2, chIndex_applyOps_of_noAccepted _ _ _ hl,
    announce_of_accepted st msg opts f hacc, chIndex_armTimer,
    chIndex_writeAccepted]
  exact flip_ne _

/-- Witness for C3: a concrete accepted polite announce, followed by a clear,
an assertive announce and a clock advance (none an accepted polite announce),
then a second accepted polite announce targeting the other slot. -/
theorem rotation_never_repeats_slot_witness :
    suppressedOn (initialState 7000) "a" ⟨none, none⟩ = false ∧
    channelOf ⟨some LiveAnnouncerPriority.polite, none⟩ = channelOf ⟨none, none⟩ ∧
    suppressedOn (applyOps (announce (initialState 7000) "a" ⟨none, none⟩ "g")
      [Op.clearOp, Op.announceOp "x" ⟨some LiveAnnouncerPriority.assertive, none⟩ "h",
       Op.advanceOp 3]) "b" ⟨some LiveAnnouncerPriority.polite, none⟩ = false ∧
    noAcceptedOn (channelOf (⟨none, none⟩ : LiveAnnouncerOptions))
      (announce (initialState 7000) "a" ⟨none, none⟩ "g")
      [Op.clearOp, Op.announceOp "x" ⟨some LiveAnnouncerPriority.assertive, none⟩ "h",
       Op.advanceOp 3] = true ∧
    writeTarget (applyOps (announce (initialState 7000) "a" ⟨none, none⟩ "g")
        [Op.clearOp, Op.announceOp "x" ⟨some LiveAnnouncerPriority.assertive, none⟩ "h",
         Op.advanceOp 3]) ⟨some LiveAnnouncerPriority.polite, none⟩ ≠
      writeTarget (initialState 7000) ⟨none, none⟩ :=
  ⟨by decide, by decide, by decide, by decide,
    (rotation_never_repeats_slot (initialState 7000) "a" ⟨none, none⟩ "g"
      [Op.clearOp, Op.announceOp "x" ⟨some LiveAnnouncerPriority.assertive, none⟩ "h",
       Op.advanceOp 3] "b" ⟨some LiveAnnouncerPriority.polite, none⟩ "g2"
      (by decide) (by decide) (by decide) (by decide)).1⟩

lemma delay_writeAccepted (st : StoreState) (msg : String)
    (opts : LiveAnnouncerOptions) (f : String) :
    (writeAccepted st msg opts f).delay = st.delay := by
  rcases h : channelOf opts with _ | _ <;> simp [writeAccepted, h]

lemma now_writeAccepted (st : StoreState) (msg : String)
    (opts : LiveAnnouncerOptions) (f : String) :
    (writeAccepted st msg opts f).now = st.now := by
  rcases h : channelOf opts with _ | _ <;> simp [writeAccepted, h]

lemma pending_writeAccepted (st : StoreState) (msg : String)
    (opts : LiveAnnouncerOptions) (f : String) :
    (writeAccepted st msg opts f).pending = st.pending := by
  rcases h : channelOf opts with _ | _ <;> simp [writeAccepted, h]

lemma delay_advanceTime (st : StoreState) (dt : Nat) :
    (advanceTime st dt).delay = st.delay := by
  cases hp : st.pending with
  | none =>
    simp only [advanceTime, hp]
  | some fireAt =>
    simp only [advanceTime, hp]
    by_cases hfire : fireAt ≤ st.now + dt
    · rw [if_pos hfire]
      rfl
    · rw [if_neg hfire]

lemma delay_applyOp (st : StoreState) (op : Op) :
    (applyOp st op).delay = st.delay := by
  cases op with
  | clearOp => rfl
  | advanceOp dt => exact delay_advanceTime st dt
  | announceOp msg opts f =>
    rw [applyOp, announce_eq]
    split
    · rfl
    · rw [armTimer_eq]
      exact delay_writeAccepted st msg opts f

lemma reachable_delay (d : Nat) (st : StoreState) (h : Reachable d st) :
    st.delay = d := by
  induction h with
  | init => rfl
  | step st' op _ ih =>
    rw [delay_applyOp]
    exact ih

lemma announce_pending_delay_zero (st : StoreState) (msg : String)
    (opts : LiveAnnouncerOptions) (f : String) (hd : st.delay = 0) :
    (announce st msg opts f).pending = st.pending := by
  rw [announce_eq]
  split
  · rfl
  · rw [armTimer_eq]
    simp [delay_writeAccepted, hd, pending_writeAccepted]

lemma reachable_zero_pending (st : StoreState) (h : Reachable 0 st) :
    st.pending = none := by
  induction h with
  | init => rfl
  | step st' op hr ih =>
    have hd : st'.delay = 0 := reachable_delay 0 st' hr
    cases op with
    | clearOp => exact ih
    | advanceOp dt =>
      simp only [applyOp, advanceTime, ih]
    | announceOp msg opts f =>
      rw [applyOp, announce_pending_delay_zero st' msg opts f hd]
      exact ih

lemma advanceTime_no_pending (st : StoreState) (dt : Nat)
    (h : st.pending = none) :
    advanceTime st dt = { st with now := st.now + dt } := by
  simp only [advanceTime, h]

/-- C5: the auto-clear timer.  (1) With a positive configured delay, every
accepted announce replaces any pending timeout by one firing `delay` from
the current time (so at most one timeout is ever pending).  (2) When the
pending timeout's deadline is reached, all four slots and both channels'
last-announcement memories are reset and the timeout is spent.  (3) With
delay configured 0, in every reachable state no announce arms a timeout and
advancing time by any amount never changes any slot. -/
theorem autoclear_timer_behavior :
    (∀ (st : StoreState) (msg : String) (opts : LiveAnnouncerOptions) (f : String),
      0 < st.delay → suppressedOn st msg opts = false →
        (announce st msg opts f).pending = some (st.now + st.delay)) ∧
    (∀ (st : StoreState) (dt fireAt : Nat),
      st.pending = some fireAt → fireAt ≤ st.now + dt →
        (advanceTime st dt).polite1 = "" ∧ (advanceTime st dt).polite2 = "" ∧
        (advanceTime st dt).assertive1 = "" ∧ (advanceTime st dt).assertive2 = "" ∧
        (advanceTime st dt).lastPolite = ⟨"", ""⟩ ∧
        (advanceTime st dt).lastAssertive = ⟨"", ""⟩ ∧
        (advanceTime st dt).pending = none) ∧
    (∀ st : StoreState, Reachable 0 st →
      (∀ (msg : String) (opts : LiveAnnouncerOptions) (f : String),
        (announce st msg opts f).pending = none) ∧
      (∀ (dt : Nat) (c : LiveAnnouncerPriority),
        chSlots c (advanceTime st dt) = chSlots c st)) := by
  refine ⟨?_, ?_, ?_⟩
  · intro st msg opts f hpos hacc
    rw [announce_of_accepted st msg opts f hacc, armTimer_eq]
    simp [delay_writeAccepted, now_writeAccepted, hpos]
  · intro st dt fireAt hp hfire
    simp only [advanceTime, hp]
    rw [if_pos hfire]
    exact ⟨rfl, rfl, rfl, rfl, rfl, rfl, rfl⟩
  · intro st hr
    have hd : st.delay = 0 := reachable_delay 0 st hr
    have hp : st.pending = none := reachable_zero_pending st hr
    refine ⟨fun msg opts f => ?_, fun dt c => ?_⟩
    · rw [announce_pending_delay_zero st msg opts f hd]
      exact hp
    · rw [advanceTime_no_pending st dt hp]
      cases c <;> rfl

/-- Witness for C5: arming, firing and the delay-0 store at concrete inputs. -/
theorem autoclear_timer_behavior_witness :
    (announce (initialState 1000) "hi" ⟨none, none⟩ "g").pending =
      some ((initialState 1000).now + (initialState 1000).delay) ∧
    (advanceTime (announce (initialState 1000) "hi" ⟨none, none⟩ "g") 1000).polite1
      = "" ∧
    (advanceTime (announce (initialState 1000) "hi" ⟨none, none⟩ "g") 1000).pending
      = none ∧
    (announce (initialState 0) "hi" ⟨none, none⟩ "g").pending = none ∧
    chSlots LiveAnnouncerPriority.polite (advanceTime (initialState 0) 5000) =
      chSlots LiveAnnouncerPriority.polite (initialState 0) := by
  have h1 := autoclear_timer_behavior.1 (initialState 1000) "hi" ⟨none, none⟩ "g"
    (by decide) (by decide)
  have h2 := autoclear_timer_behavior.2.1
    (announce (initialState 1000) "hi" ⟨none, none⟩ "g") 1000 1000
    (by decide) (by decide)
  have h3 := autoclear_timer_behavior.2.2 (initialState 0) Reachable.init
  exact ⟨h1, h2.1, h2.2.2.2.2.2.2, h3.1 "hi" ⟨none, none⟩ "g", h3.2 5000 _⟩

/-- The `previousMessageRef`/`previousIdRef` pair observed by
`LiveAnnouncerMessage` across lifecycle updates. -/
structure MessageObserver where
  previousMessage : String
  previousId : Option String
deriving DecidableEq, Repr

/-- The change-triggered effect of `LiveAnnouncerMessage` on one lifecycle
update: `if (message && (message !== previousMessageRef.current || id !==
previousIdRef.current)) { announce(message, { priority, id }); update both
refs }`.  Returns the store state, the observer refs, and whether `announce`
was invoked. -/
def liveAnnouncerMessageUpdate (st : StoreState) (obs : MessageObserver)
    (message : String) (priority : LiveAnnouncerPriority) (id : Option String)
    (freshId : String) : StoreState × MessageObserver × Bool :=
  if !(message == "")
      && (!(message == obs.previousMessage) || !(id == obs.previousId)) then
    (announce st message ⟨some priority, id⟩ freshId, ⟨message, id⟩, true)
  else
    (st, obs, false)

/-- C8: on a lifecycle update, `LiveAnnouncerMessage` invokes `announce` if
and only if the configured message is non-empty AND (the message differs
from the previously observed message OR the identifier differs from the
previously observed identifier); the store is mutated exactly when it does,
and when it does not invoke `announce` the previously observed pair is left
unchanged. -/
theorem message_effect_announces_iff (st : StoreState) (obs : MessageObserver)
    (message : String) (priority : LiveAnnouncerPriority) (id : Option String)
    (freshId : String) :
    ((liveAnnouncerMessageUpdate st obs message priority id freshId).2.2 = true ↔
      (message ≠ "" ∧
        (message ≠ obs.previousMessage ∨ id ≠ obs.previousId))) ∧
    ((liveAnnouncerMessageUpdate st obs message priority id freshId).1 =
      if (liveAnnouncerMessageUpdate st obs message priority id freshId).2.2
      then announce st message ⟨some priority, id⟩ freshId else st) ∧
    ((liveAnnouncerMessageUpdate st obs message priority id freshId).2.1 =
      if (liveAnnouncerMessageUpdate st obs message priority id freshId).2.2
      then ⟨message, id⟩ else obs) := by
  unfold liveAnnouncerMessageUpdate
  split
  · rename_i h
    simp only [Bool.and_eq_true, Bool.or_eq_true, Bool.not_eq_true',
      beq_eq_false_iff_ne, ne_eq] at h
    simp [h]
  · rename_i h
    refine ⟨?_, by simp, by simp⟩
    simp only [Bool.false_eq_true, false_iff]
    intro hc
    apply h
    simp only [Bool.and_eq_true, Bool.or_eq_true, Bool.not_eq_true',
      beq_eq_false_iff_ne, ne_eq]
    exact ⟨hc.1, hc.2⟩

/-- One call to one of the four operations exposed by the context value:
`announce`, `announcePolite`, `announceAssertive`, `clearAnnouncements`. -/
inductive ExposedOp where
  | announceCall (message : String) (opts : LiveAnnouncerOptions) (freshId : String)
  | announcePoliteCall (message : String) (id : Option String) (freshId : String)
  | announceAssertiveCall (message : String) (id : Option String) (freshId : String)
  | clearCall
deriving DecidableEq, Repr

/-- Run one exposed operation against a store. -/
def runExposed (st : StoreState) : ExposedOp → StoreState
  | ExposedOp.announceCall m o f => announce st m o f
  | ExposedOp.announcePoliteCall m i f => announcePolite st m i f
  | ExposedOp.announceAssertiveCall m i f => announceAssertive st m i f
  | ExposedOp.clearCall => clearAnnouncements st

/-- The message of the error `useLiveAnnouncer` throws outside a provider. -/
def initializationError : String :=
  "useLiveAnnouncer must be used within a LiveAnnouncerProvider"

/-- Requesting the operations through `useLiveAnnouncer` and invoking one:
with no enclosing `LiveAnnouncerProvider` the hook throws its
initialization error; inside a provider scope the operation runs on the
store and returns the new state. -/
def invokeOperation (ctx : Option StoreState) (op : ExposedOp) :
    Except String StoreState :=
  match ctx with
  | none => Except.error initializationError
  | some st => Except.ok (runExposed st op)

/-- C9: every exposed operation fails with the initialization error exactly
when no store scope encloses the call, and that is the only error: with a
store present, every operation on every input (empty message, repeated
identifier, rapid repeats) returns a new state and never an error. -/
theorem operations_fail_only_without_provider (op : ExposedOp) :
    invokeOperation none op = Except.error initializationError ∧
    (∀ st : StoreState, invokeOperation (some st) op = Except.ok (runExposed st op)) ∧
    (∀ (st : StoreState) (e : String), invokeOperation (some st) op ≠ Except.error e) :=
  ⟨rfl, fun _ => rfl, fun _ _ h => Except.noConfusion h⟩
